import Mathlib

/-!
# Verification of the hledger-based tax computation engine

Shallow embedding of the pure arithmetic core of `src/taxes.py` and the
output-parsing helper of `src/utils.py`, over exact rationals (`ℚ`) in place
of Python floats. Each definition mirrors one Python function; configuration
reads (`personal.yaml`, tax-parameter files) are modelled as explicit
arguments, with the per-function default-resolution steps embedded as their
own definitions.
-/

namespace Taxes

/-- One tax bracket, from the YAML bracket tables consumed by
`compute_bracket_tax` in `src/taxes.py`: a dict with keys `threshold` and
`rate`. -/
structure Bracket where
  threshold : ℚ
  rate : ℚ
  deriving DecidableEq

/-- One surcharge rule, from the YAML `surcharges` lists consumed by
`compute_surcharges` in `src/taxes.py`. The Python code reads the fields
with `s.get('threshold', 0)` / `s.get('rate', 0)`, so both may be absent. -/
structure Surcharge where
  threshold : Option ℚ
  rate : Option ℚ
  deriving DecidableEq

/-- Embedding of `compute_self_employment_tax` (src/taxes.py lines 54-61):
`net_business_income * 0.9235 * 0.029`, no clamping. -/
def compute_self_employment_tax (net_business_income : ℚ) : ℚ :=
  net_business_income * 0.9235 * 0.029

/-- Embedding of the filing-status read in `compute_investment_tax`
(src/taxes.py line 73): `params.get("filing_status", "joint")`. -/
def niit_filing_status (filing_status_cfg : Option String) : String :=
  filing_status_cfg.getD "joint"

/-- Embedding of the filing-status read in `compute_social_security_tax`
(src/taxes.py line 130): `params.get("filing_status", "joint")`. -/
def ss_filing_status (filing_status_cfg : Option String) : String :=
  filing_status_cfg.getD "joint"

/-- Embedding of the filing-status read in `compute_medicare_tax`
(src/taxes.py line 163): `params.get("filing_status", "single")`. -/
def medicare_filing_status (filing_status_cfg : Option String) : String :=
  filing_status_cfg.getD "single"

/-- Embedding of `compute_investment_tax` (src/taxes.py lines 64-92) after
the NIIT threshold has been resolved from the year's federal parameters
(`fed_params.get('niit_threshold', 200000)` with joint fallback): returns 0
when AGI is at or below the threshold, else 3.8% of the clamped lesser of
investment income and the AGI excess. -/
def compute_investment_tax (investment_income agi niit_threshold : ℚ) : ℚ :=
  if agi ≤ niit_threshold then 0
  else 0.038 * max (min investment_income (agi - niit_threshold)) 0

/-- The solo-401k contribution policy read from `personal.yaml`
(`params.get("solo_401k_contribution", "maximize")`): the string
`"maximize"`, the string `"none"`, a number, or any other YAML value
(`invalid`). -/
inductive SoloConfig where
  | maximize : SoloConfig
  | none : SoloConfig
  | num : ℚ → SoloConfig
  | invalid : SoloConfig
  deriving DecidableEq

/-- Embedding of `compute_solo_401k_contribution` (src/taxes.py lines
95-119) with the configuration value passed explicitly:
`max_contribution = net_business_income * 0.19732`; `"maximize"` returns it,
`"none"` or the number `0` returns 0, any other number `p` returns
`max_contribution * (p / 100)`, anything else returns `max_contribution`. -/
def compute_solo_401k_contribution (cfg : SoloConfig)
    (net_business_income : ℚ) : ℚ :=
  let max_contribution := net_business_income * 0.19732
  match cfg with
  | .maximize => max_contribution
  | .none => 0
  | .num p => if p = 0 then 0 else max_contribution * (p / 100)
  | .invalid => max_contribution

/-- Embedding of `compute_social_security_tax` (src/taxes.py lines 122-152)
with the filing status passed explicitly (its in-function resolution is
[[ss_filing_status]]): doubles `ss_max` for joint filers, caps the W2-side
12.4% tax at `ss_max`, caps the self-employment-side 12.4% tax at the
remaining headroom, subtracts the amount already paid and returns the
NEGATIVE of the shortfall. -/
def compute_social_security_tax (filing_status : String)
    (w2_medicare net_business_income ss_max soc_tax_paid : ℚ) : ℚ :=
  let ss_max := if filing_status = "joint" then ss_max * 2 else ss_max
  let w2_ss_tax := min (w2_medicare * 0.124) ss_max
  let remaining_ss_limit := max 0 (ss_max - w2_ss_tax)
  let se_ss_tax := min (net_business_income * 0.9235 * 0.124) remaining_ss_limit
  let total_ss_tax_owed := w2_ss_tax + se_ss_tax
  let ss_extra := total_ss_tax_owed - soc_tax_paid
  Neg.neg ss_extra

/-- Embedding of `compute_medicare_tax` (src/taxes.py lines 155-182) after
the Medicare threshold has been resolved from the year's federal parameters
(`fed_params.get('medicare_threshold', 200000)` with joint fallback):
1.45% base tax on Medicare wages plus a 0.9% surtax on combined income over
the threshold, minus the amount already paid, floored at 0. -/
def compute_medicare_tax (w2_medicare net_business_income med_tax_paid
    threshold : ℚ) : ℚ :=
  let medicare_tax := 0.0145 * w2_medicare
  let medicare_extra :=
    max 0 (w2_medicare + net_business_income * 0.9235 - threshold) * 0.009
  let total := medicare_tax + medicare_extra
  max (total - med_tax_paid) 0

/-- The per-bracket accumulation loop of `compute_bracket_tax`
(src/taxes.py lines 190-202): for every bracket except the last, income
above the bracket threshold accrues tax at the bracket rate on
`min(income, next_threshold) - threshold`; the last bracket accrues on all
income above its threshold. -/
def bracketTaxAux (taxable_income : ℚ) : List Bracket → ℚ
  | [] => 0
  | [b] =>
      if taxable_income > b.threshold
      then (taxable_income - b.threshold) * b.rate else 0
  | b :: b2 :: rest =>
      (if taxable_income > b.threshold
       then (min taxable_income b2.threshold - b.threshold) * b.rate else 0)
      + bracketTaxAux taxable_income (b2 :: rest)

/-- Embedding of `compute_bracket_tax` (src/taxes.py lines 185-203): the
bracket loop, with the result clamped to be non-negative
(`max(tax, 0.0)`). -/
def compute_bracket_tax (taxable_income : ℚ) (brackets : List Bracket) : ℚ :=
  max (bracketTaxAux taxable_income brackets) 0

/-- Embedding of the local `compute_surcharges` defined inside
`compute_taxes` (src/taxes.py lines 324-330): a running total over the
rules, each contributing `rate * max(income - threshold, 0)` with missing
fields defaulting to 0. -/
def compute_surcharges (taxable_income : ℚ) (surcharges : List Surcharge) : ℚ :=
  surcharges.foldl
    (fun total s =>
      total + s.rate.getD 0 * max (taxable_income - s.threshold.getD 0) 0) 0

/-- The interest-related fields of `personal.yaml` as read by
`compute_interest` (src/taxes.py lines 23-36): the per-year override map
`interest_by_year` (keyed by year), the optional `interest_account`, and the
optional amortization parameters. -/
structure InterestConfig where
  interest_by_year : Int → Option ℚ
  interest_account : Option String
  principal : Option ℚ
  monthly_rate : Option ℚ
  payment : Option ℚ
  start_year : Option Int

/-- The local `balance_after` of `compute_interest` (src/taxes.py lines
39-43): remaining loan balance after `m` monthly payments. -/
def balance_after (principal monthly_rate payment : ℚ) (m : ℕ) : ℚ :=
  if monthly_rate = 0 then principal - payment * m
  else
    let factor := (1 + monthly_rate) ^ m
    principal * factor - payment * (factor - 1) / monthly_rate

/-- The local `interest_paid_until` of `compute_interest` (src/taxes.py
lines 44-48): cumulative interest paid through month `m`. -/
def interest_paid_until (principal monthly_rate payment : ℚ) (m : ℕ) : ℚ :=
  let total_paid := payment * m
  let remaining_balance := balance_after principal monthly_rate payment m
  let principal_reduction := principal - remaining_balance
  total_paid - principal_reduction

/-- Embedding of `compute_interest` (src/taxes.py lines 19-51) with the
configuration and the external hledger balance query (`run_hledger_command`,
an out-of-scope collaborator) passed explicitly. Resolution order: per-year
override, then ledger account, then the amortization formula over
`start_month = max(0, 12*(year - start_year))`, else 0. -/
def compute_interest (cfg : InterestConfig) (ledger : String → Int → ℚ)
    (year : Int) : ℚ :=
  match cfg.interest_by_year year with
  | some v => v
  | Option.none =>
    match cfg.interest_account with
    | some acct => ledger acct year
    | Option.none =>
      match cfg.principal, cfg.monthly_rate, cfg.payment, cfg.start_year with
      | some principal, some monthly_rate, some payment, some start_year =>
          let start_month : ℕ := (12 * (year - start_year)).toNat
          let end_month : ℕ := start_month + 12
          interest_paid_until principal monthly_rate payment end_month
            - interest_paid_until principal monthly_rate payment start_month
      | _, _, _, _ => 0

end Taxes

namespace Utils

/-- Value of one decimal-digit character, as used by `float()` parsing. -/
def digitsVal (cs : List Char) : ℕ :=
  cs.foldl (fun a c => a * 10 + (c.toNat - '0'.toNat)) 0

/-- Whether every character of the list is a decimal digit. -/
def allDigits (cs : List Char) : Bool :=
  cs.all Char.isDigit

/-- The mantissa part of a Python `float()` literal: digits with at most one
decimal point and at least one digit overall (`"12"`, `"12.5"`, `".5"`,
`"12."`). -/
def parseMantissa (cs : List Char) : Option ℚ :=
  match cs.splitOn '.' with
  | [intPart] =>
      if intPart ≠ [] ∧ allDigits intPart
      then some (digitsVal intPart) else Option.none
  | [intPart, fracPart] =>
      if (intPart ≠ [] ∨ fracPart ≠ []) ∧ allDigits intPart ∧ allDigits fracPart
      then some ((digitsVal intPart : ℚ)
                 + (digitsVal fracPart : ℚ) / 10 ^ fracPart.length)
      else Option.none
  | _ => Option.none

/-- The exponent part of a Python `float()` literal: an optional sign
followed by at least one digit. -/
def parseExpPart (cs : List Char) : Option ℤ :=
  match cs with
  | '+' :: rest =>
      if rest ≠ [] ∧ allDigits rest then some (digitsVal rest) else Option.none
  | '-' :: rest =>
      if rest ≠ [] ∧ allDigits rest
      then some (Neg.neg (digitsVal rest : ℤ)) else Option.none
  | _ =>
      if cs ≠ [] ∧ allDigits cs then some (digitsVal cs) else Option.none

/-- An unsigned Python `float()` literal: mantissa with optional
`e`/`E`-exponent. -/
def parseUnsigned (cs : List Char) : Option ℚ :=
  match cs.splitOnP (fun c => c == 'e' || c == 'E') with
  | [mant] => parseMantissa mant
  | [mant, ex] => do
      let m ← parseMantissa mant
      let e ← parseExpPart ex
      some (m * (10 : ℚ) ^ e)
  | _ => Option.none

/-- Modelled from Python's built-in `float(total_str)` as used in
`parse_hledger_output` (src/utils.py line 63), restricted to finite decimal
literals (optional sign, digits, optional decimal point, optional
decimal exponent); the non-rational inputs `inf`/`nan` and digit-grouping
underscores are treated as unparseable. Returns `none` where Python raises
`ValueError`. -/
def floatOfChars (cs : List Char) : Option ℚ :=
  match cs with
  | '+' :: rest => parseUnsigned rest
  | '-' :: rest => (parseUnsigned rest).map (fun q => Neg.neg q)
  | _ => parseUnsigned cs

/-- Python `str.strip()` on a character list: leading and trailing
whitespace removed. -/
def pyStrip (cs : List Char) : List Char :=
  ((cs.dropWhile Char.isWhitespace).reverse.dropWhile Char.isWhitespace).reverse

/-- The token-extraction pipeline of `parse_hledger_output` (src/utils.py
lines 60-61): last line of the stripped output, first whitespace-delimited
field, with all `$` and `,` characters removed. Line breaks are `\n`, `\r`
or `\r\n`, and whitespace is space/tab/CR/LF, matching `Char.isWhitespace`;
the rarer Unicode breaks Python also recognises do not occur in hledger
output. -/
def extract_total_str (output : String) : List Char :=
  let stripped := pyStrip output.toList
  let last_line :=
    (stripped.splitOnP (fun c => c == '\n' || c == '\r')).getLastD []
  let first_field :=
    ((last_line.splitOnP Char.isWhitespace).filter (fun t => t ≠ [])).headD []
  first_field.filter (fun c => !(c == '$' || c == ','))

/-- Embedding of `parse_hledger_output` (src/utils.py lines 54-65): 0 for
blank output, otherwise the ABSOLUTE value of the parsed first field of the
last line, or 0 when that field does not parse as a number. -/
def parse_hledger_output (output : String) : ℚ :=
  if pyStrip output.toList = [] then 0
  else
    match floatOfChars (extract_total_str output) with
    | some q => |q|
    | Option.none => 0

/-- C9: `parse_hledger_output` is non-negative on every output string: the
numeric total parsed from the first field of the last line is returned as
its absolute value, so outputs whose totals parse to a value and to its
negation yield the same aggregate; blank output and an unparseable first
field yield 0. -/
theorem parse_hledger_output_correct :
    (∀ s : String, 0 ≤ parse_hledger_output s)
    ∧ (∀ s : String, pyStrip s.toList = [] → parse_hledger_output s = 0)
    ∧ (∀ s : String, floatOfChars (extract_total_str s) = Option.none →
        parse_hledger_output s = 0)
    ∧ (∀ (s : String) (q : ℚ), pyStrip s.toList ≠ [] →
        floatOfChars (extract_total_str s) = some q →
        parse_hledger_output s = |q|)
    ∧ (∀ (s t : String) (q : ℚ), pyStrip s.toList ≠ [] →
        pyStrip t.toList ≠ [] →
        floatOfChars (extract_total_str s) = some q →
        floatOfChars (extract_total_str t) = some (Neg.neg q) →
        parse_hledger_output s = parse_hledger_output t) := by
  have h2 : ∀ s : String, pyStrip s.toList = [] → parse_hledger_output s = 0 :=
    fun s h => by simp [parse_hledger_output, String.toList] at h ⊢; simp [h]
  have h3 : ∀ s : String, floatOfChars (extract_total_str s) = Option.none →
      parse_hledger_output s = 0 := by
    intro s hnone
    by_cases h : pyStrip s.toList = []
    · exact h2 s h
    · simp only [String.toList] at h
      simp [parse_hledger_output, h, hnone]
  have h4 : ∀ (s : String) (q : ℚ), pyStrip s.toList ≠ [] →
      floatOfChars (extract_total_str s) = some q →
      parse_hledger_output s = |q| :=
    fun s q hne hq => by
      simp only [String.toList] at hne
      simp [parse_hledger_output, hne, hq]
  have h1 : ∀ s : String, 0 ≤ parse_hledger_output s := by
    intro s
    by_cases h : pyStrip s.toList = []
    · rw [h2 s h]
    · cases hm : floatOfChars (extract_total_str s) with
      | none => rw [h3 s hm]
      | some q => rw [h4 s q h hm]; exact abs_nonneg q
  refine ⟨h1, h2, h3, h4, fun s t q hs ht hq hqt => ?_⟩
  rw [h4 s q hs hq, h4 t _ ht hqt, abs_neg]

/-- Witness for C9: the ledger totals `$-1,234` and `$1,234` both parse, the
former to the negation of the latter, and both outputs yield the same
non-negative aggregate `|(-1234)|`. -/
theorem parse_hledger_output_correct_witness :
    pyStrip ("Total\n  $-1,234  USD" : String).toList ≠ []
    ∧ pyStrip ("$1,234" : String).toList ≠ []
    ∧ floatOfChars (extract_total_str "Total\n  $-1,234  USD")
        = some (-1234)
    ∧ floatOfChars (extract_total_str "$1,234")
        = some (Neg.neg (-1234 : ℚ))
    ∧ parse_hledger_output "Total\n  $-1,234  USD" = |(-1234 : ℚ)|
    ∧ parse_hledger_output "Total\n  $-1,234  USD"
        = parse_hledger_output "$1,234" := by
  have hs : pyStrip ("Total\n  $-1,234  USD" : String).toList ≠ [] := by decide
  have ht : pyStrip ("$1,234" : String).toList ≠ [] := by decide
  have hq : floatOfChars (extract_total_str "Total\n  $-1,234  USD")
      = some (-1234) := by decide
  have hqt : floatOfChars (extract_total_str "$1,234")
      = some (Neg.neg (-1234 : ℚ)) := by decide
  exact ⟨hs, ht, hq, hqt,
    parse_hledger_output_correct.2.2.2.1 _ (-1234) hs hq,
    parse_hledger_output_correct.2.2.2.2 _ _ (-1234) hs ht hq hqt⟩

end Utils

namespace Taxes

/-- The Social-Security true-up formula as the specification words it
(§4.7): cap doubled for joint filers, W2-side tax capped at the cap,
self-employment-side tax capped at the remaining headroom, and the negative
of the shortfall returned. -/
def social_security_tax_spec (filing_status : String)
    (w2_medicare net_business_income ss_max soc_tax_paid : ℚ) : ℚ :=
  let cap := if filing_status = "joint" then 2 * ss_max else ss_max
  let w2_ss_tax := min (w2_medicare * 0.124) cap
  let se_ss_tax :=
    min (net_business_income * 0.9235 * 0.124) (max 0 (cap - w2_ss_tax))
  Neg.neg (w2_ss_tax + se_ss_tax - soc_tax_paid)

/-- C1: `compute_social_security_tax` returns the negative of
`w2_ss_tax + se_ss_tax - soc_tax_paid`, where `cap = 2*ss_max` for joint
filers and `ss_max` otherwise, `w2_ss_tax = min(w2_medicare*0.124, cap)` and
`se_ss_tax = min(net_business_income*0.9235*0.124, max(0, cap - w2_ss_tax))`;
in particular a positive amount of extra tax owed surfaces as a negative
return value. -/
theorem compute_social_security_tax_correct (fs : String)
    (w2 nbi ssmax paid : ℚ) :
    compute_social_security_tax fs w2 nbi ssmax paid
      = social_security_tax_spec fs w2 nbi ssmax paid
    ∧ (0 < Neg.neg (social_security_tax_spec fs w2 nbi ssmax paid) →
        compute_social_security_tax fs w2 nbi ssmax paid < 0) := by
  have heq : compute_social_security_tax fs w2 nbi ssmax paid
      = social_security_tax_spec fs w2 nbi ssmax paid := by
    simp only [compute_social_security_tax, social_security_tax_spec]
    rcases eq_or_ne fs "joint" with h | h <;> simp [h, mul_comm]
  exact ⟨heq, fun hpos => by rw [heq]; linarith⟩

/-- Witness for C1: with a single filer earning `100000` of Medicare wages,
an SS cap of `10000` and nothing paid, the extra tax owed is positive and
the returned value is negative. -/
theorem compute_social_security_tax_correct_witness :
    0 < Neg.neg (social_security_tax_spec "single" 100000 0 10000 0)
    ∧ compute_social_security_tax "single" 100000 0 10000 0 < 0 := by
  have hne : ("single" : String) ≠ "joint" := by decide
  refine ⟨by norm_num [social_security_tax_spec, hne], ?_⟩
  exact (compute_social_security_tax_correct "single" 100000 0 10000 0).2
    (by norm_num [social_security_tax_spec, hne])

/-- C3: `compute_medicare_tax` returns
`max(0.0145*w2_medicare + 0.009*max(0, w2_medicare + net_business_income*0.9235
- threshold) - med_tax_paid, 0)`, and in particular is never negative. -/
theorem compute_medicare_tax_correct (w2 nbi paid thr : ℚ) :
    compute_medicare_tax w2 nbi paid thr
      = max (0.0145 * w2 + 0.009 * max 0 (w2 + nbi * 0.9235 - thr) - paid) 0
    ∧ 0 ≤ compute_medicare_tax w2 nbi paid thr := by
  constructor
  · simp only [compute_medicare_tax]
    rw [mul_comm (max 0 (w2 + nbi * 0.9235 - thr)) 0.009]
  · simp only [compute_medicare_tax]
    exact le_max_right _ _

/-- C4: `compute_investment_tax` returns 0 when AGI is at or below the
threshold, and otherwise `0.038 * max(min(investment_income,
agi - threshold), 0)`; in particular, when AGI exceeds the threshold and
investment income exceeds the AGI excess, the tax is 3.8% of the excess,
never of the larger investment income. -/
theorem compute_investment_tax_correct (inv agi thr : ℚ) :
    (agi ≤ thr → compute_investment_tax inv agi thr = 0)
    ∧ (thr < agi → compute_investment_tax inv agi thr
        = 0.038 * max (min inv (agi - thr)) 0)
    ∧ (thr < agi → agi - thr < inv →
        compute_investment_tax inv agi thr = 0.038 * (agi - thr)) := by
  refine ⟨fun h => by simp [compute_investment_tax, h], fun h => ?_, ?_⟩
  · simp [compute_investment_tax, not_le.mpr h]
  · intro h hinv
    have h1 : min inv (agi - thr) = agi - thr := min_eq_right hinv.le
    have h2 : (0 : ℚ) ≤ agi - thr := by linarith
    simp [compute_investment_tax, not_le.mpr h, h1, max_eq_left h2]

/-- Witness for C4: AGI `150000` at threshold `200000` yields 0; AGI
`250000` with investment income `60000` above the `50000` excess yields
`0.038 * 50000`. -/
theorem compute_investment_tax_correct_witness :
    compute_investment_tax 100 150000 200000 = 0
    ∧ compute_investment_tax 60000 250000 200000 = 0.038 * (250000 - 200000) :=
  ⟨(compute_investment_tax_correct 100 150000 200000).1 (by norm_num),
   (compute_investment_tax_correct 60000 250000 200000).2.2 (by norm_num)
     (by norm_num)⟩

/-- C6: `compute_solo_401k_contribution` with
`max_contribution = net_business_income * 0.19732` returns it for
`"maximize"`, 0 for `"none"` or numeric 0, `max_contribution * p/100` for a
numeric policy `p`, and `max_contribution` for any invalid policy; in
particular at `net_business_income = 100000`, `"maximize"` yields 19732,
policy 50 yields 9866 and `"none"` yields 0. -/
theorem compute_solo_401k_contribution_correct (nbi p : ℚ) :
    compute_solo_401k_contribution .maximize nbi = nbi * 0.19732
    ∧ compute_solo_401k_contribution .none nbi = 0
    ∧ compute_solo_401k_contribution (.num 0) nbi = 0
    ∧ compute_solo_401k_contribution (.num p) nbi = nbi * 0.19732 * (p / 100)
    ∧ compute_solo_401k_contribution .invalid nbi = nbi * 0.19732
    ∧ compute_solo_401k_contribution .maximize 100000 = 19732
    ∧ compute_solo_401k_contribution (.num 50) 100000 = 9866
    ∧ compute_solo_401k_contribution .none 100000 = 0 := by
  refine ⟨rfl, rfl, by simp [compute_solo_401k_contribution], ?_,
    rfl, by norm_num [compute_solo_401k_contribution],
    by norm_num [compute_solo_401k_contribution],
    by norm_num [compute_solo_401k_contribution]⟩
  rcases eq_or_ne p 0 with h | h
  · simp [compute_solo_401k_contribution, h]
  · simp [compute_solo_401k_contribution, h]

/-- C7: `compute_self_employment_tax` returns exactly
`net_business_income * 0.9235 * 0.029` with no clamping; a negative input
yields a negative result. -/
theorem compute_self_employment_tax_correct (x : ℚ) :
    compute_self_employment_tax x = x * 0.9235 * 0.029
    ∧ (x < 0 → compute_self_employment_tax x < 0) := by
  refine ⟨rfl, fun hx => ?_⟩
  have h1 : (0 : ℚ) < 0.9235 * 0.029 := by norm_num
  calc compute_self_employment_tax x = x * (0.9235 * 0.029) := by
        simp [compute_self_employment_tax, mul_assoc]
    _ < 0 := mul_neg_of_neg_of_pos hx h1

/-- Witness for C7: a net business income of `-1000` yields a negative
self-employment tax. -/
theorem compute_self_employment_tax_correct_witness :
    (-1000 : ℚ) < 0 ∧ compute_self_employment_tax (-1000) < 0 :=
  ⟨by norm_num, (compute_self_employment_tax_correct (-1000)).2 (by norm_num)⟩

/-- The bracket-tax algorithm as the specification words it (§4.1): each
bracket except the last, when income exceeds its threshold, contributes its
rate on `min(income, next_threshold) - threshold`; the last bracket
contributes its rate on `income - threshold` when income exceeds it; the sum
is clamped to be non-negative. -/
def bracket_tax_spec (taxable_income : ℚ) (brackets : List Bracket) : ℚ :=
  let marginal :=
    ((brackets.zip brackets.tail).map (fun p =>
      if taxable_income > p.1.threshold
      then (min taxable_income p.2.threshold - p.1.threshold) * p.1.rate
      else 0)).sum
  let top :=
    match brackets.getLast? with
    | some b =>
        if taxable_income > b.threshold
        then (taxable_income - b.threshold) * b.rate else 0
    | Option.none => 0
  max (marginal + top) 0

theorem bracketTaxAux_eq_spec (ti : ℚ) (l : List Bracket) :
    bracketTaxAux ti l
      = ((l.zip l.tail).map (fun p =>
          if ti > p.1.threshold
          then (min ti p.2.threshold - p.1.threshold) * p.1.rate else 0)).sum
        + (match l.getLast? with
           | some b => if ti > b.threshold then (ti - b.threshold) * b.rate else 0
           | Option.none => 0) := by
  induction l with
  | nil => simp [bracketTaxAux]
  | cons b tl ih =>
    cases tl with
    | nil => simp [bracketTaxAux]
    | cons b2 rest =>
      simp only [bracketTaxAux, ih, List.tail_cons, List.zip_cons_cons,
        List.map_cons, List.sum_cons, List.getLast?_cons_cons]
      ring

/-- C2: `compute_bracket_tax` accrues, for each bracket except the last with
income above its threshold, `rate * (min(income, next_threshold) -
threshold)`, and for the last bracket `rate * (income - threshold)` when
income exceeds it, clamping the sum to be non-negative; in particular for
the table `[{0,10%},{10000,20%}]`, income 5000 yields 500, income 15000
yields 2000, and income 0 or negative yields 0. -/
theorem compute_bracket_tax_correct :
    (∀ (ti : ℚ) (brackets : List Bracket),
      compute_bracket_tax ti brackets = bracket_tax_spec ti brackets)
    ∧ compute_bracket_tax 5000 [⟨0, 0.1⟩, ⟨10000, 0.2⟩] = 500
    ∧ compute_bracket_tax 15000 [⟨0, 0.1⟩, ⟨10000, 0.2⟩] = 2000
    ∧ compute_bracket_tax 0 [⟨0, 0.1⟩, ⟨10000, 0.2⟩] = 0
    ∧ compute_bracket_tax (-5000) [⟨0, 0.1⟩, ⟨10000, 0.2⟩] = 0 := by
  refine ⟨fun ti brackets => ?_,
    by norm_num [compute_bracket_tax, bracketTaxAux],
    by norm_num [compute_bracket_tax, bracketTaxAux],
    by norm_num [compute_bracket_tax, bracketTaxAux],
    by norm_num [compute_bracket_tax, bracketTaxAux]⟩
  rw [compute_bracket_tax, bracket_tax_spec, bracketTaxAux_eq_spec]

/-- The amortization balance formula as the specification words it (§4.3):
`principal*(1+r)^m - payment*((1+r)^m - 1)/r`, or `principal - payment*m`
when `r = 0`. -/
def spec_balance (principal r payment : ℚ) (m : ℕ) : ℚ :=
  if r = 0 then principal - payment * m
  else principal * (1 + r) ^ m - payment * ((1 + r) ^ m - 1) / r

/-- Cumulative interest paid through month `m` as the specification words it
(§4.3): `payment*m - (principal - balance(m))`. -/
def spec_interest_paid_until (principal r payment : ℚ) (m : ℕ) : ℚ :=
  payment * m - (principal - spec_balance principal r payment m)

theorem interest_paid_until_eq_spec (principal r payment : ℚ) (m : ℕ) :
    interest_paid_until principal r payment m
      = spec_interest_paid_until principal r payment m := rfl

/-- C5: with no per-year override for the requested year and no ledger
account configured, but all four amortization parameters present,
`compute_interest` returns `interest_paid_until(start_month + 12) -
interest_paid_until(start_month)` for `start_month = max(0, 12*(year -
start_year))`, with the balance and cumulative-interest formulas of the
specification. -/
theorem compute_interest_amortization_correct (cfg : InterestConfig)
    (ledger : String → Int → ℚ) (year : Int) (p r pay : ℚ) (sy : Int)
    (h1 : cfg.interest_by_year year = Option.none)
    (h2 : cfg.interest_account = Option.none)
    (h3 : cfg.principal = some p) (h4 : cfg.monthly_rate = some r)
    (h5 : cfg.payment = some pay) (h6 : cfg.start_year = some sy) :
    (((12 * (year - sy)).toNat : ℤ) = max 0 (12 * (year - sy)))
    ∧ compute_interest cfg ledger year
        = spec_interest_paid_until p r pay ((12 * (year - sy)).toNat + 12)
          - spec_interest_paid_until p r pay ((12 * (year - sy)).toNat) := by
  constructor
  · rw [Int.toNat_eq_max, max_comm]
  · simp only [compute_interest, h1, h2, h3, h4, h5, h6]
    rw [interest_paid_until_eq_spec, interest_paid_until_eq_spec]

/-- A concrete interest configuration with only the amortization parameters
set: principal 300000, monthly rate 0.003, payment 1500, starting 2020. -/
def sampleInterestConfig : InterestConfig :=
  ⟨fun _ => Option.none, Option.none, some 300000, some 0.003, some 1500,
    some 2020⟩

/-- Witness for C5: the amortization branch at year 2021 for
[[sampleInterestConfig]]. -/
theorem compute_interest_amortization_correct_witness :
    sampleInterestConfig.interest_by_year 2021 = Option.none
    ∧ sampleInterestConfig.interest_account = Option.none
    ∧ ((((12 * ((2021 : ℤ) - 2020)).toNat : ℤ)
          = max 0 (12 * ((2021 : ℤ) - 2020)))
        ∧ compute_interest sampleInterestConfig (fun _ _ => 0) 2021
            = spec_interest_paid_until 300000 0.003 1500
                ((12 * ((2021 : ℤ) - 2020)).toNat + 12)
              - spec_interest_paid_until 300000 0.003 1500
                  ((12 * ((2021 : ℤ) - 2020)).toNat)) :=
  ⟨rfl, rfl,
   compute_interest_amortization_correct sampleInterestConfig (fun _ _ => 0)
     2021 300000 0.003 1500 2020 rfl rfl rfl rfl rfl rfl⟩

theorem bracketTaxAux_mono {x y : ℚ} (hxy : x ≤ y) (l : List Bracket) :
    l.Pairwise (fun a b => a.threshold < b.threshold) →
    (∀ b ∈ l, 0 ≤ b.rate) →
    bracketTaxAux x l ≤ bracketTaxAux y l := by
  induction l with
  | nil => intro _ _; simp [bracketTaxAux]
  | cons b tl ih =>
    intro hpw hr
    have hrb : 0 ≤ b.rate := hr b (List.mem_cons_self b tl)
    cases tl with
    | nil =>
      simp only [bracketTaxAux]
      split_ifs with hx hy hy
      · exact mul_le_mul_of_nonneg_right (by linarith) hrb
      · exact absurd (lt_of_lt_of_le hx hxy) hy
      · exact mul_nonneg (by linarith) hrb
      · exact le_refl 0
    | cons b2 rest =>
      have hlt : b.threshold < b2.threshold :=
        (List.pairwise_cons.mp hpw).1 b2 (List.mem_cons_self b2 rest)
      have htail := (List.pairwise_cons.mp hpw).2
      have hrtail : ∀ c ∈ b2 :: rest, 0 ≤ c.rate :=
        fun c hc => hr c (List.mem_cons_of_mem b hc)
      simp only [bracketTaxAux]
      refine add_le_add ?_ (ih htail hrtail)
      split_ifs with hx hy hy
      · exact mul_le_mul_of_nonneg_right
          (sub_le_sub_right (min_le_min hxy le_rfl) b.threshold) hrb
      · exact absurd (lt_of_lt_of_le hx hxy) hy
      · exact mul_nonneg (sub_nonneg.mpr (le_min hy.le hlt.le)) hrb
      · exact le_refl 0

theorem surcharges_foldl (ti init : ℚ) (l : List Surcharge) :
    l.foldl (fun total s =>
        total + s.rate.getD 0 * max (ti - s.threshold.getD 0) 0) init
      = init + (l.map (fun s =>
          s.rate.getD 0 * max (ti - s.threshold.getD 0) 0)).sum := by
  induction l generalizing init with
  | nil => simp
  | cons s tl ih =>
    simp only [List.foldl_cons, List.map_cons, List.sum_cons, ih]
    ring

theorem compute_surcharges_mono {x y : ℚ} (hxy : x ≤ y) (l : List Surcharge)
    (hr : ∀ s ∈ l, 0 ≤ s.rate.getD 0) :
    compute_surcharges x l ≤ compute_surcharges y l := by
  simp only [compute_surcharges, surcharges_foldl, zero_add]
  refine List.sum_le_sum fun s hs => ?_
  exact mul_le_mul_of_nonneg_left
    (max_le_max (sub_le_sub_right hxy _) le_rfl) (hr s hs)

/-- C8: for a bracket table with strictly increasing thresholds and rates in
`[0,1]`, and surcharge rules with non-negative rates, `compute_bracket_tax`
and `compute_surcharges` are monotonic non-decreasing in income. -/
theorem tax_monotone (brackets : List Bracket) (surcharges : List Surcharge)
    (x y : ℚ)
    (hth : brackets.Pairwise (fun a b => a.threshold < b.threshold))
    (hrate : ∀ b ∈ brackets, 0 ≤ b.rate ∧ b.rate ≤ 1)
    (hsur : ∀ s ∈ surcharges, 0 ≤ s.rate.getD 0)
    (hxy : x ≤ y) :
    compute_bracket_tax x brackets ≤ compute_bracket_tax y brackets
    ∧ compute_surcharges x surcharges ≤ compute_surcharges y surcharges := by
  refine ⟨?_, compute_surcharges_mono hxy surcharges hsur⟩
  exact max_le_max
    (bracketTaxAux_mono hxy brackets hth (fun b hb => (hrate b hb).1)) le_rfl

/-- Witness for C8: the two-bracket table `[{0,10%},{10000,20%}]` and the
single surcharge rule `{1000000, 1%}` are monotone between incomes 5000 and
15000. -/
theorem tax_monotone_witness :
    ([⟨0, 0.1⟩, ⟨10000, 0.2⟩] : List Bracket).Pairwise
        (fun a b => a.threshold < b.threshold)
    ∧ (∀ b ∈ ([⟨0, 0.1⟩, ⟨10000, 0.2⟩] : List Bracket),
        0 ≤ b.rate ∧ b.rate ≤ 1)
    ∧ (∀ s ∈ ([⟨some 1000000, some 0.01⟩] : List Surcharge),
        0 ≤ s.rate.getD 0)
    ∧ (5000 : ℚ) ≤ 15000
    ∧ (compute_bracket_tax 5000 [⟨0, 0.1⟩, ⟨10000, 0.2⟩]
          ≤ compute_bracket_tax 15000 [⟨0, 0.1⟩, ⟨10000, 0.2⟩]
        ∧ compute_surcharges 5000 [⟨some 1000000, some 0.01⟩]
          ≤ compute_surcharges 15000 [⟨some 1000000, some 0.01⟩]) := by
  have h1 : ([⟨0, 0.1⟩, ⟨10000, 0.2⟩] : List Bracket).Pairwise
      (fun a b => a.threshold < b.threshold) := by
    refine List.pairwise_cons.mpr ⟨?_, List.pairwise_singleton _ _⟩
    intro b hb
    rcases List.mem_singleton.mp hb with h; subst h; norm_num
  have h2 : ∀ b ∈ ([⟨0, 0.1⟩, ⟨10000, 0.2⟩] : List Bracket),
      0 ≤ b.rate ∧ b.rate ≤ 1 := by
    intro b hb
    rcases List.mem_cons.mp hb with h | h
    · subst h; norm_num
    · rcases List.mem_singleton.mp h with h; subst h; norm_num
  have h3 : ∀ s ∈ ([⟨some 1000000, some 0.01⟩] : List Surcharge),
      0 ≤ s.rate.getD 0 := by
    intro s hs
    rcases List.mem_singleton.mp hs with h; subst h; norm_num
  have h4 : (5000 : ℚ) ≤ 15000 := by norm_num
  exact ⟨h1, h2, h3, h4, tax_monotone _ _ 5000 15000 h1 h2 h3 h4⟩

/-- C10: with no `filing_status` configured, `compute_medicare_tax` resolves
the filing status to `"single"` while `compute_social_security_tax` and
`compute_investment_tax` resolve it to `"joint"`, so the Medicare-threshold
lookup and the SS wage-cap doubling use different filing statuses in the
same run. -/
theorem filing_status_default_mismatch :
    medicare_filing_status Option.none = "single"
    ∧ ss_filing_status Option.none = "joint"
    ∧ niit_filing_status Option.none = "joint"
    ∧ medicare_filing_status Option.none ≠ ss_filing_status Option.none :=
  ⟨rfl, rfl, rfl, by decide⟩

end Taxes
